import Mathlib

/-
  Verification of the azure-database table-storage access layer.

  Shallow embedding of:
  - src/unnamed/part_000 (the AzureTableStorageService connection manager,
    azure-table.service.ts);
  - src/lib/table-storage/azure-table.repository.ts (the
    AzureTableStorageRepository and its handleRestErrors classifier).

  Entities are modelled as association lists of string fields (JS objects
  are ordered string-keyed records; the repository only moves fields around,
  so scalar values are modelled as strings).  Asynchronous backend calls are
  modelled by passing the backend call's outcome (success value or raised
  RestError) as an explicit argument.  A JS throw is modelled with Except.
-/

deriving instance DecidableEq for Except

namespace AzureDatabase

/-- A JS string split on a single-character separator, as performed by
String.prototype.split in the source: an empty input yields one empty
segment, and n separators yield n+1 segments. -/
def splitCharAux (sep : Char) : List Char → List Char → List String
  | [], acc => [String.mk acc.reverse]
  | c :: cs, acc =>
    if c = sep then String.mk acc.reverse :: splitCharAux sep cs []
    else splitCharAux sep cs (c :: acc)

/-- JS s.split(sep) for a one-character separator. -/
def jsSplit (sep : Char) (s : String) : List String :=
  splitCharAux sep s.data []

/-- JS s.startsWith brace-test: the source only ever calls startsWith with
the one-character argument U+007B, so this is a first-character test. -/
def jsStartsWithLbrace (s : String) : Bool :=
  match s.data with
  | [] => false
  | c :: _ => c = '\x7b'

/- ## Connection manager (azure-table.service.ts) -/

/-- A service-level handle, recording the arguments of
TableServiceClient.fromConnectionString. -/
structure TableServiceClient where
  connectionString : String
deriving DecidableEq

/-- A table-level handle, recording the arguments of
TableClient.fromConnectionString, including the allowInsecureConnection
option passed at construction. -/
structure TableClient where
  connectionString : String
  tableName : String
  allowInsecureConnection : Bool
deriving DecidableEq

def TableServiceClient.fromConnectionString (connectionString : String) :
    TableServiceClient :=
  ⟨connectionString⟩

def TableClient.fromConnectionString (connectionString : String)
    (tableName : String) (allowInsecureConnection : Bool) : TableClient :=
  ⟨connectionString, tableName, allowInsecureConnection⟩

/-- The state of one AzureTableStorageService instance: the injected table
name, the ambient value of process.env.AZURE_STORAGE_CONNECTION_STRING, and
the two private memo fields (undefined, i.e. none, until first use). -/
structure AzureTableStorageService where
  tableName : String
  envConnectionString : String
  tableServiceClient : Option TableServiceClient
  tableClient : Option TableClient
deriving DecidableEq

/-- The class constructor: only the table name is injected; both memo
fields start undefined. -/
def AzureTableStorageService.make (tableName envConnectionString : String) :
    AzureTableStorageService :=
  ⟨tableName, envConnectionString, none, none⟩

/-- Getter tableServiceClientInstance: returns the cached client if set,
otherwise constructs it from the connection string, caches it and returns
it.  The pair is (returned client, state after the call). -/
def tableServiceClientInstance (s : AzureTableStorageService) :
    TableServiceClient × AzureTableStorageService :=
  match s.tableServiceClient with
  | some client => (client, s)
  | none =>
    let client := TableServiceClient.fromConnectionString s.envConnectionString
    (client, { s with tableServiceClient := some client })

/-- Getter tableClientInstance: returns the cached client if set, otherwise
constructs it from the connection string and table name with
allowInsecureConnection set to the literal true, caches it and returns it. -/
def tableClientInstance (s : AzureTableStorageService) :
    TableClient × AzureTableStorageService :=
  match s.tableClient with
  | some client => (client, s)
  | none =>
    let client :=
      TableClient.fromConnectionString s.envConnectionString s.tableName true
    (client, { s with tableClient := some client })

/-- One accessor call on the service: which of the two getters is invoked. -/
inductive Accessor where
  | service
  | client
deriving DecidableEq

/-- State effect of one accessor call (the returned handle is dropped). -/
def applyAccessor (s : AzureTableStorageService) : Accessor → AzureTableStorageService
  | .service => (tableServiceClientInstance s).2
  | .client => (tableClientInstance s).2

/-- State after a sequence of accessor calls. -/
def runCalls (s : AzureTableStorageService) (calls : List Accessor) :
    AzureTableStorageService :=
  calls.foldl applyAccessor s

/- ## Repository data model (azure-table.repository.ts) -/

/-- An entity is a JS object: an insertion-ordered list of named fields. -/
abbrev Entity := List (String × String)

/-- The nested odataError object inside a RestError's details. -/
structure OdataError where
  code : String
  messageValue : String
deriving DecidableEq

/-- A structured backend RestError: a message, the details payload with the
nested odataError, and a status code. -/
structure RestError where
  message : String
  details : OdataError
  statusCode : Nat
deriving DecidableEq

/-- The CustomError produced by the classifier: message, code, statusCode. -/
structure CustomError where
  message : String
  code : String
  statusCode : Nat
deriving DecidableEq

/-- What handleRestErrors delivers to the operation's catch block.  A JS
throw may raise any value: thrownError is the fresh value built by
new Error(message) (it carries only a message — no statusCode, no details);
thrownOriginal is re-raising the caught RestError value itself, unchanged
(never produced by the source, present so that propagation of the original
error is expressible); customError is the CustomError the classifier
returns, which every caller then throws. -/
inductive ClassifyResult where
  | thrownError (message : String)
  | thrownOriginal (e : RestError)
  | customError (e : CustomError)
deriving DecidableEq

/-- handleRestErrors: if the raw message is not JSON-shaped (does not start
with an opening brace) a fresh plain Error wrapping only the message is
thrown; otherwise the nested odataError code selects a message template and
a CustomError (message, code, statusCode) is returned. -/
def handleRestErrors (tableName : String) (error : RestError) : ClassifyResult :=
  if !jsStartsWithLbrace error.message then
    .thrownError error.message
  else
    let errorCode := error.details.code
    let errorMessage :=
      if errorCode = "TableAlreadyExists" then
        "Error creating table. Table " ++ tableName ++ " already exists."
      else if errorCode = "TableNotFound" then
        "Error creating entity. Table " ++ tableName ++ " Not Found. Is it created?"
      else if errorCode = "ResourceNotFound" then
        "Error processing entity. Entity not found."
      else if errorCode = "InvalidInput" then
        (jsSplit '\n' error.details.messageValue).foldl
          (fun r line => r ++ line) "Error creating entity:"
      else if errorCode = "TableBeingDeleted" then
        "Error creating entity. Table " ++ tableName ++ " is being deleted. Try again later."
      else if errorCode = "EntityAlreadyExists" then
        "Error creating entity. Entity with the same partitionKey and rowKey already exists."
      else error.message
    .customError ⟨errorMessage, errorCode, error.statusCode⟩

/-- Backend-internal metadata field names.  Modelled from the spec: the
mapper must strip backend-internal metadata fields such as ETags and
timestamps. -/
def metadataKeys : List String := ["etag", "timestamp", "odata.metadata"]

/-- Modelled from the spec: AzureEntityMapper.serialize (its source file,
azure-table.mapper.ts, is not present under src/).  A pure transform that
strips the backend-internal metadata fields not part of the entity's
logical shape and passes every other field through unmodified. -/
def AzureEntityMapper.serialize (raw : Entity) : Entity :=
  raw.filter (fun kv => !(metadataKeys.contains kv.1))

/-- Feature options injected into the repository. -/
structure AzureTableStorageFeatureOptions where
  createTableIfNotExists : Bool
deriving DecidableEq

/- ## Repository operations.  Each operation takes the outcome of the
backend call it awaits as an explicit argument; a thrown value is the
Except.error case of the result. -/

/-- createTableIfNotExists: awaits the backend createTable; on success
returns true, on a raised RestError routes it through handleRestErrors and
throws the outcome.  The TS return type is Promise of boolean or null,
hence the Option Bool payload. -/
def createTableIfNotExists (tableName : String)
    (backendCreateTable : Except RestError Unit) :
    Except ClassifyResult (Option Bool) :=
  match backendCreateTable with
  | .ok _ => .ok (some true)
  | .error error => .error (handleRestErrors tableName error)

/-- find: awaits the backend getEntity; on success maps the raw record
through the entity mapper and returns null when the mapped record has zero
fields, the mapped entity otherwise; on a raised RestError routes it
through handleRestErrors and throws the outcome. -/
def find (tableName : String) (backendGetEntity : Except RestError Entity) :
    Except ClassifyResult (Option Entity) :=
  match backendGetEntity with
  | .ok result =>
    let mappedEntity := AzureEntityMapper.serialize result
    if mappedEntity.length = 0 then .ok none
    else .ok (some mappedEntity)
  | .error error => .error (handleRestErrors tableName error)

/-- findAll: drains the backend listing into an array by pushing each raw
record, and returns that array; on a raised RestError routes it through
handleRestErrors and throws the outcome. -/
def findAll (tableName : String)
    (backendListEntities : Except RestError (List Entity)) :
    Except ClassifyResult (List Entity) :=
  match backendListEntities with
  | .ok records => .ok (records.foldl (fun entities entity => entities ++ [entity]) [])
  | .error error => .error (handleRestErrors tableName error)

/-- The write part of create: awaits the backend createEntity, maps the
raw result through the entity mapper, or classifies and throws. -/
def createWrite (tableName : String)
    (backendCreateEntity : Except RestError Entity) :
    Except ClassifyResult (Option Entity) :=
  match backendCreateEntity with
  | .ok result => .ok (some (AzureEntityMapper.serialize result))
  | .error error => .error (handleRestErrors tableName error)

/-- create: when the createTableIfNotExists feature option is set, first
runs table provisioning (outside any try block, so its throw propagates)
and returns null if provisioning returned null; then performs the backend
createEntity write. -/
def create (options : AzureTableStorageFeatureOptions) (tableName : String)
    (backendCreateTable : Except RestError Unit)
    (backendCreateEntity : Except RestError Entity) :
    Except ClassifyResult (Option Entity) :=
  if options.createTableIfNotExists then
    match createTableIfNotExists tableName backendCreateTable with
    | .error raised => .error raised
    | .ok res =>
      if res = none then .ok none
      else createWrite tableName backendCreateEntity
  else createWrite tableName backendCreateEntity

/-- JS entity.hasOwnProperty(key): is a field with this name present. -/
def hasOwnProperty (e : Entity) (key : String) : Bool :=
  e.any (fun kv => kv.1 == key)

/-- JS entity[key] = value: overwrites the field in place when present,
otherwise appends it (JS objects append new properties in insertion
order). -/
def setField (e : Entity) (key value : String) : Entity :=
  if hasOwnProperty e key then
    e.map (fun kv => if kv.1 == key then (kv.1, value) else kv)
  else e ++ [(key, value)]

/-- JS property read entity[key], as an Option. -/
def getField (e : Entity) (key : String) : Option String :=
  (e.find? (fun kv => kv.1 == key)).map (fun kv => kv.2)

/-- The entity value update passes to the backend updateEntity: the caller's
entity after the two guarded key injections — rowKey from the rowKey
argument when absent, then partitionKey from the partitionKey argument when
absent. -/
def updateWrittenEntity (partitionKey rowKey : String) (entity : Entity) : Entity :=
  let e1 :=
    if !hasOwnProperty entity "rowKey" then setField entity "rowKey" rowKey
    else entity
  if !hasOwnProperty e1 "partitionKey" then setField e1 "partitionKey" partitionKey
  else e1

/-- update: injects missing key fields into the entity, awaits the backend
updateEntity on the written entity, maps the raw result through the entity
mapper, or classifies and throws.  The backend outcome is a function of the
written entity. -/
def update (tableName : String) (partitionKey rowKey : String) (entity : Entity)
    (backendUpdateEntity : Entity → Except RestError Entity) :
    Except ClassifyResult Entity :=
  let written := updateWrittenEntity partitionKey rowKey entity
  match backendUpdateEntity written with
  | .ok result => .ok (AzureEntityMapper.serialize result)
  | .error error => .error (handleRestErrors tableName error)

/- ## Helper lemmas -/

lemma hasOwnProperty_cons (kv : String × String) (tl : Entity) (k : String) :
    hasOwnProperty (kv :: tl) k = ((kv.1 == k) || hasOwnProperty tl k) := by
  simp [hasOwnProperty]

lemma hasOwnProperty_append (e1 e2 : Entity) (k : String) :
    hasOwnProperty (e1 ++ e2) k = (hasOwnProperty e1 k || hasOwnProperty e2 k) := by
  simp [hasOwnProperty]

lemma getField_cons (kv : String × String) (tl : Entity) (k : String) :
    getField (kv :: tl) k = if kv.1 == k then some kv.2 else getField tl k := by
  by_cases h : (kv.1 == k) = true
  · simp [getField, List.find?, h]
  · simp only [Bool.not_eq_true] at h
    simp [getField, List.find?, h]

lemma getField_eq_none_of_not_has (e : Entity) (k : String)
    (h : hasOwnProperty e k = false) : getField e k = none := by
  induction e with
  | nil => rfl
  | cons kv tl ih =>
    rw [hasOwnProperty_cons, Bool.or_eq_false_iff] at h
    rw [getField_cons, h.1]
    simpa using ih h.2

lemma getField_append_left_none (e1 e2 : Entity) (k : String)
    (h : hasOwnProperty e1 k = false) : getField (e1 ++ e2) k = getField e2 k := by
  induction e1 with
  | nil => rfl
  | cons kv tl ih =>
    rw [hasOwnProperty_cons, Bool.or_eq_false_iff] at h
    rw [List.cons_append, getField_cons, h.1]
    simpa using ih h.2

lemma getField_append_right_none (e1 e2 : Entity) (k : String)
    (h : hasOwnProperty e2 k = false) : getField (e1 ++ e2) k = getField e1 k := by
  induction e1 with
  | nil => simpa using getField_eq_none_of_not_has e2 k h
  | cons kv tl ih =>
    rw [List.cons_append, getField_cons, getField_cons, ih]

lemma setField_of_not_has (e : Entity) (k v : String)
    (h : hasOwnProperty e k = false) : setField e k v = e ++ [(k, v)] := by
  simp [setField, h]

lemma updateWrittenEntity_of_missing (partitionKey rowKey : String) (entity : Entity)
    (h1 : hasOwnProperty entity "rowKey" = false)
    (h2 : hasOwnProperty entity "partitionKey" = false) :
    updateWrittenEntity partitionKey rowKey entity
      = entity ++ [("rowKey", rowKey), ("partitionKey", partitionKey)] := by
  have hp' : hasOwnProperty (entity ++ [("rowKey", rowKey)]) "partitionKey" = false := by
    rw [hasOwnProperty_append, h2]
    simp [hasOwnProperty]
  unfold updateWrittenEntity
  rw [setField_of_not_has entity "rowKey" rowKey h1, h1]
  simp only [Bool.not_false, if_true]
  rw [hp']
  simp only [Bool.not_false, if_true]
  rw [setField_of_not_has _ _ _ hp']
  simp

lemma foldl_push_eq_append (l init : List Entity) :
    l.foldl (fun entities entity => entities ++ [entity]) init = init ++ l := by
  induction l generalizing init with
  | nil => simp
  | cons a tl ih => simp [List.foldl, ih]

lemma foldl_append_eq_join (l : List String) (init : String) :
    l.foldl (fun r line => r ++ line) init = init ++ String.join l := by
  induction l generalizing init with
  | nil =>
    show init = init ++ ""
    rw [String.append_empty]
  | cons a tl ih =>
    show tl.foldl _ (init ++ a) = init ++ String.join (a :: tl)
    rw [ih (init ++ a)]
    have hj : String.join (a :: tl) = a ++ String.join tl := by
      show tl.foldl _ ("" ++ a) = _
      rw [ih ("" ++ a), String.empty_append]
    rw [hj, String.append_assoc]

/- ## C1: find on a backend ResourceNotFound error -/

/-- C1 counterexample: at a concrete structured ResourceNotFound backend
error, find raises the classified DomainError (code ResourceNotFound,
status 404) and does not return null, contrary to the claim that find
returns null and raises no classified error in this case. -/
theorem find_resource_not_found_cex :
    find "tbl" (.error ⟨"\x7b\"odata.error\":\"nf\"", ⟨"ResourceNotFound", ""⟩, 404⟩)
      = .error (.customError
          ⟨"Error processing entity. Entity not found.", "ResourceNotFound", 404⟩)
    ∧ find "tbl" (.error ⟨"\x7b\"odata.error\":\"nf\"", ⟨"ResourceNotFound", ""⟩, 404⟩)
      ≠ .ok none := by
  decide

/-- C1 amended: for every call find(partitionKey, rowKey) where the
backend's getEntity raises a structured error whose detail code is
ResourceNotFound, find raises the classified DomainError with message
"Error processing entity. Entity not found.", code ResourceNotFound and
the backend's status code; it does not return null.  (find returns null
only when a successful lookup maps to an entity with zero fields.) -/
theorem find_resource_not_found_raises (tableName : String) (e : RestError)
    (h1 : jsStartsWithLbrace e.message = true)
    (h2 : e.details.code = "ResourceNotFound") :
    find tableName (.error e)
      = .error (.customError
          ⟨"Error processing entity. Entity not found.", "ResourceNotFound", e.statusCode⟩) := by
  simp [find, handleRestErrors, h1, h2]

/-- C1 witness: the amended theorem applied at a concrete structured
ResourceNotFound error. -/
theorem find_resource_not_found_raises_witness :
    find "people" (.error ⟨"\x7bmsg", ⟨"ResourceNotFound", "x"⟩, 404⟩)
      = .error (.customError
          ⟨"Error processing entity. Entity not found.", "ResourceNotFound", 404⟩) :=
  find_resource_not_found_raises "people" ⟨"\x7bmsg", ⟨"ResourceNotFound", "x"⟩, 404⟩
    (by decide) rfl

/- ## C2: the classifier on an unstructured backend error -/

/-- C2 counterexample: at a concrete backend error whose message is not
JSON-shaped, the classifier throws a fresh plain Error carrying only the
message string; it does not re-raise the original RestError value, so the
original statusCode and detail payload are not preserved, contrary to the
claim. -/
theorem classifier_unstructured_cex :
    handleRestErrors "tbl" ⟨"network failure", ⟨"", ""⟩, 500⟩
      = .thrownError "network failure"
    ∧ handleRestErrors "tbl" ⟨"network failure", ⟨"", ""⟩, 500⟩
      ≠ .thrownOriginal ⟨"network failure", ⟨"", ""⟩, 500⟩ := by
  decide

/-- C2 amended: for every raw backend error whose message is not a
structured (JSON-shaped) payload, the classifier does not construct a
DomainError, but it does not re-raise the original error value either: it
throws a fresh plain Error wrapping only the original message string, so
the original statusCode and detail payload are lost. -/
theorem classifier_unstructured_throws_fresh (tableName : String) (e : RestError)
    (h : jsStartsWithLbrace e.message = false) :
    handleRestErrors tableName e = .thrownError e.message := by
  simp [handleRestErrors, h]

/-- C2 witness: the amended theorem applied at a concrete unstructured
error. -/
theorem classifier_unstructured_throws_fresh_witness :
    handleRestErrors "people" ⟨"connect ECONNREFUSED", ⟨"", ""⟩, 0⟩
      = .thrownError "connect ECONNREFUSED" :=
  classifier_unstructured_throws_fresh "people" ⟨"connect ECONNREFUSED", ⟨"", ""⟩, 0⟩
    (by decide)

/- ## C3: findAll and the entity mapper -/

/-- C3 counterexample: at a concrete one-record listing whose record
carries a backend metadata field (etag), findAll returns the raw record
unchanged, which differs from the listing mapped through the entity
mapper — the metadata field is not stripped, contrary to the claim. -/
theorem findAll_not_mapped_cex :
    findAll "tbl" (.ok [[("etag", "W0"), ("name", "alice")]])
      = .ok [[("etag", "W0"), ("name", "alice")]]
    ∧ List.map AzureEntityMapper.serialize [[("etag", "W0"), ("name", "alice")]]
      = [[("name", "alice")]]
    ∧ findAll "tbl" (.ok [[("etag", "W0"), ("name", "alice")]])
      ≠ .ok (List.map AzureEntityMapper.serialize [[("etag", "W0"), ("name", "alice")]]) := by
  decide

/-- C3 amended: every element of the sequence returned by findAll is the
corresponding raw backend listing record passed through unchanged — the
entity mapper is not applied, so backend-internal metadata fields are not
stripped from the returned entities. -/
theorem findAll_returns_raw_records (tableName : String) (records : List Entity) :
    findAll tableName (.ok records) = .ok records := by
  simp [findAll, foldl_push_eq_append]

/- ## C4: the allowInsecureConnection flag -/

/-- C4 counterexample: no two connection configurations (table name and
connection string, the configuration the service is constructed from)
yield entity handles with different insecure-connection flags — the flag
is not determined by configuration, contrary to the claim. -/
theorem table_client_flag_not_configurable_cex :
    ¬ ∃ t₁ c₁ t₂ c₂ : String,
      (tableClientInstance (.make t₁ c₁)).1.allowInsecureConnection
        ≠ (tableClientInstance (.make t₂ c₂)).1.allowInsecureConnection := by
  rintro ⟨t₁, c₁, t₂, c₂, h⟩
  exact h rfl

/-- C4 amended: for every connection configuration, the entity handle is
constructed with the insecure-connection flag fixed by the implementation
to the constant true, regardless of the supplied configuration. -/
theorem table_client_flag_always_true (tableName envConnectionString : String) :
    (tableClientInstance (.make tableName envConnectionString)).1.allowInsecureConnection
      = true := rfl

/- ## C5: provisioning never yields null -/

/-- C5: for every execution, createTableIfNotExists either raises or
returns true — never null and never false; consequently create's
short-circuit branch for a null provisioning result is unreachable, and
create never returns null (its successful payload is always a non-null
entity). -/
theorem provisioning_never_null (tableName : String)
    (backendCreateTable : Except RestError Unit)
    (options : AzureTableStorageFeatureOptions)
    (provisionOutcome : Except RestError Unit)
    (backendCreateEntity : Except RestError Entity) :
    ((∃ raised, createTableIfNotExists tableName backendCreateTable = .error raised)
      ∨ createTableIfNotExists tableName backendCreateTable = .ok (some true))
    ∧ ((∃ raised,
          create options tableName provisionOutcome backendCreateEntity = .error raised)
      ∨ ∃ entity,
          create options tableName provisionOutcome backendCreateEntity
            = .ok (some entity)) := by
  constructor
  · cases backendCreateTable with
    | ok _ => exact Or.inr rfl
    | error e => exact Or.inl ⟨_, rfl⟩
  · obtain ⟨flag⟩ := options
    cases flag with
    | false =>
      cases backendCreateEntity with
      | ok v =>
        exact Or.inr ⟨AzureEntityMapper.serialize v, by simp [create, createWrite]⟩
      | error e =>
        exact Or.inl ⟨handleRestErrors tableName e, by simp [create, createWrite]⟩
    | true =>
      cases provisionOutcome with
      | error e =>
        exact Or.inl ⟨handleRestErrors tableName e, by
          simp [create, createTableIfNotExists]⟩
      | ok _ =>
        cases backendCreateEntity with
        | ok v =>
          exact Or.inr ⟨AzureEntityMapper.serialize v, by
            simp [create, createTableIfNotExists, createWrite]⟩
        | error e =>
          exact Or.inl ⟨handleRestErrors tableName e, by
            simp [create, createTableIfNotExists, createWrite]⟩

/- ## C6: update injects missing key fields -/

/-- C6: for every call update(pk, rk, entity) where entity carries neither
a rowKey nor a partitionKey field, the entity value passed to the backend's
updateEntity has rowKey equal to rk and partitionKey equal to pk, and every
other field of entity is unchanged. -/
theorem update_injects_missing_keys (partitionKey rowKey : String) (entity : Entity)
    (h1 : hasOwnProperty entity "rowKey" = false)
    (h2 : hasOwnProperty entity "partitionKey" = false) :
    getField (updateWrittenEntity partitionKey rowKey entity) "rowKey" = some rowKey
    ∧ getField (updateWrittenEntity partitionKey rowKey entity) "partitionKey"
        = some partitionKey
    ∧ ∀ key : String, key ≠ "rowKey" → key ≠ "partitionKey" →
        getField (updateWrittenEntity partitionKey rowKey entity) key
          = getField entity key := by
  rw [updateWrittenEntity_of_missing partitionKey rowKey entity h1 h2]
  refine ⟨?_, ?_, ?_⟩
  · rw [getField_append_left_none _ _ _ h1, getField_cons]
    simp
  · rw [getField_append_left_none _ _ _ h2, getField_cons, getField_cons]
    simp
  · intro key hk1 hk2
    apply getField_append_right_none
    rw [hasOwnProperty_cons, hasOwnProperty_cons]
    simp [hasOwnProperty, Ne.symm hk1, Ne.symm hk2]

/-- C6 witness: the theorem applied at a concrete patch entity without key
fields. -/
theorem update_injects_missing_keys_witness :
    getField (updateWrittenEntity "P" "R" [("name", "bob")]) "rowKey" = some "R"
    ∧ getField (updateWrittenEntity "P" "R" [("name", "bob")]) "partitionKey" = some "P"
    ∧ getField (updateWrittenEntity "P" "R" [("name", "bob")]) "name"
        = getField [("name", "bob")] "name" :=
  have h := update_injects_missing_keys "P" "R" [("name", "bob")]
    (by decide) (by decide)
  ⟨h.1, h.2.1, h.2.2 "name" (by decide) (by decide)⟩

/- ## C7: InvalidInput concatenates the multi-line detail message -/

/-- C7: for every structured backend error with detail code InvalidInput,
the resulting DomainError's message is the fixed header followed by the
concatenation of all lines of the detail message body in their original
order (so the message contains every line, concatenated in order), with
the code InvalidInput and the backend's status code. -/
theorem invalid_input_concatenates_lines (tableName : String) (e : RestError)
    (h1 : jsStartsWithLbrace e.message = true)
    (h2 : e.details.code = "InvalidInput") :
    handleRestErrors tableName e
      = .customError
          ⟨"Error creating entity:"
              ++ String.join (jsSplit '\n' e.details.messageValue),
            "InvalidInput", e.statusCode⟩ := by
  simp [handleRestErrors, h1, h2, foldl_append_eq_join]

/-- C7 witness: the theorem applied at a concrete three-line detail
message; the resulting message is the header followed by the three lines
concatenated in order. -/
theorem invalid_input_concatenates_lines_witness :
    handleRestErrors "tbl" ⟨"\x7berr", ⟨"InvalidInput", "one\ntwo\nthree"⟩, 400⟩
      = .customError
          ⟨"Error creating entity:" ++ String.join (jsSplit '\n' "one\ntwo\nthree"),
            "InvalidInput", 400⟩
    ∧ String.join (jsSplit '\n' "one\ntwo\nthree") = "one" ++ "two" ++ "three" :=
  ⟨invalid_input_concatenates_lines "tbl" ⟨"\x7berr", ⟨"InvalidInput", "one\ntwo\nthree"⟩, 400⟩
      (by decide) rfl,
    by decide⟩

/- ## C8: connection handles are memoized -/

lemma tableServiceClientInstance_cached (s : AzureTableStorageService)
    (client : TableServiceClient) (h : s.tableServiceClient = some client) :
    tableServiceClientInstance s = (client, s) := by
  simp [tableServiceClientInstance, h]

lemma tableClientInstance_cached (s : AzureTableStorageService)
    (client : TableClient) (h : s.tableClient = some client) :
    tableClientInstance s = (client, s) := by
  simp [tableClientInstance, h]

lemma svc_cached_after (s : AzureTableStorageService) :
    (tableServiceClientInstance s).2.tableServiceClient
      = some (tableServiceClientInstance s).1 := by
  cases h : s.tableServiceClient <;> simp [tableServiceClientInstance, h]

lemma cli_cached_after (s : AzureTableStorageService) :
    (tableClientInstance s).2.tableClient = some (tableClientInstance s).1 := by
  cases h : s.tableClient <;> simp [tableClientInstance, h]

lemma applyAccessor_preserves_svc (s : AzureTableStorageService) (a : Accessor)
    (client : TableServiceClient) (h : s.tableServiceClient = some client) :
    (applyAccessor s a).tableServiceClient = some client := by
  cases a with
  | service =>
    rw [applyAccessor, tableServiceClientInstance_cached s client h]
    exact h
  | client => cases hc : s.tableClient <;> simp [applyAccessor, tableClientInstance, hc, h]

lemma applyAccessor_preserves_cli (s : AzureTableStorageService) (a : Accessor)
    (client : TableClient) (h : s.tableClient = some client) :
    (applyAccessor s a).tableClient = some client := by
  cases a with
  | client =>
    rw [applyAccessor, tableClientInstance_cached s client h]
    exact h
  | service =>
    cases hc : s.tableServiceClient <;> simp [applyAccessor, tableServiceClientInstance, hc, h]

lemma runCalls_preserves_svc (calls : List Accessor) (s : AzureTableStorageService)
    (client : TableServiceClient) (h : s.tableServiceClient = some client) :
    (runCalls s calls).tableServiceClient = some client := by
  induction calls generalizing s with
  | nil => exact h
  | cons a tl ih => exact ih (applyAccessor s a) (applyAccessor_preserves_svc s a client h)

lemma runCalls_preserves_cli (calls : List Accessor) (s : AzureTableStorageService)
    (client : TableClient) (h : s.tableClient = some client) :
    (runCalls s calls).tableClient = some client := by
  induction calls generalizing s with
  | nil => exact h
  | cons a tl ih => exact ih (applyAccessor s a) (applyAccessor_preserves_cli s a client h)

/-- C8: each of the two handles is constructed at most once per instance:
after any accessor call the returned handle is the cached one; calling the
same accessor again returns the identical cached instance and leaves the
state unchanged (no reconstruction); and after any further sequence of
accessor calls on either accessor, the same accessor still returns the
instance produced by its first call. -/
theorem connection_handles_memoized (s : AzureTableStorageService) :
    tableServiceClientInstance (tableServiceClientInstance s).2
        = ((tableServiceClientInstance s).1, (tableServiceClientInstance s).2)
    ∧ tableClientInstance (tableClientInstance s).2
        = ((tableClientInstance s).1, (tableClientInstance s).2)
    ∧ (tableServiceClientInstance s).2.tableServiceClient
        = some (tableServiceClientInstance s).1
    ∧ (tableClientInstance s).2.tableClient = some (tableClientInstance s).1
    ∧ ∀ calls : List Accessor,
        (tableServiceClientInstance (runCalls (tableServiceClientInstance s).2 calls)).1
            = (tableServiceClientInstance s).1
        ∧ (tableClientInstance (runCalls (tableClientInstance s).2 calls)).1
            = (tableClientInstance s).1 := by
  refine ⟨tableServiceClientInstance_cached _ _ (svc_cached_after s),
    tableClientInstance_cached _ _ (cli_cached_after s),
    svc_cached_after s, cli_cached_after s, ?_⟩
  intro calls
  constructor
  · rw [tableServiceClientInstance_cached _ _
      (runCalls_preserves_svc calls _ _ (svc_cached_after s))]
  · rw [tableClientInstance_cached _ _
      (runCalls_preserves_cli calls _ _ (cli_cached_after s))]

/- ## C9: unknown structured codes fall back to the raw message -/

/-- C9: for every structured backend error whose detail code is none of the
six known codes, the classifier returns a DomainError whose message is the
raw backend message unmodified, whose code is the payload's detail code and
whose statusCode is the backend's status code. -/
theorem unknown_code_raw_message (tableName : String) (e : RestError)
    (h1 : jsStartsWithLbrace e.message = true)
    (h2 : e.details.code ≠ "TableAlreadyExists")
    (h3 : e.details.code ≠ "TableNotFound")
    (h4 : e.details.code ≠ "ResourceNotFound")
    (h5 : e.details.code ≠ "InvalidInput")
    (h6 : e.details.code ≠ "TableBeingDeleted")
    (h7 : e.details.code ≠ "EntityAlreadyExists") :
    handleRestErrors tableName e
      = .customError ⟨e.message, e.details.code, e.statusCode⟩ := by
  simp [handleRestErrors, h1, h2, h3, h4, h5, h6, h7]

/-- C9 witness: the theorem applied at a concrete structured error with an
unknown detail code. -/
theorem unknown_code_raw_message_witness :
    handleRestErrors "tbl" ⟨"\x7braw body", ⟨"SomethingElse", ""⟩, 418⟩
      = .customError ⟨"\x7braw body", "SomethingElse", 418⟩ :=
  unknown_code_raw_message "tbl" ⟨"\x7braw body", ⟨"SomethingElse", ""⟩, 418⟩
    (by decide) (by decide) (by decide) (by decide) (by decide) (by decide) (by decide)

/- ## C10: update keeps key fields already present on the entity -/

/-- C10: for every call update(pk, rk, entity) where entity already carries
a rowKey field or a partitionKey field, that field's existing value is kept
in the entity written to the backend and the corresponding call argument is
ignored, even when the values differ. -/
theorem update_keeps_existing_keys (partitionKey rowKey : String) (entity : Entity) :
    (hasOwnProperty entity "rowKey" = true →
      getField (updateWrittenEntity partitionKey rowKey entity) "rowKey"
        = getField entity "rowKey")
    ∧ (hasOwnProperty entity "partitionKey" = true →
      getField (updateWrittenEntity partitionKey rowKey entity) "partitionKey"
        = getField entity "partitionKey") := by
  constructor
  · intro hr
    by_cases hp : hasOwnProperty entity "partitionKey"
    · simp [updateWrittenEntity, hr, hp]
    · simp only [Bool.not_eq_true] at hp
      have hsf := setField_of_not_has entity "partitionKey" partitionKey hp
      simp only [updateWrittenEntity, hr, hp, hsf, Bool.not_true, Bool.not_false,
        Bool.false_eq_true, if_false, if_true]
      apply getField_append_right_none
      simp [hasOwnProperty]
  · intro hp
    by_cases hr : hasOwnProperty entity "rowKey"
    · simp [updateWrittenEntity, hr, hp]
    · simp only [Bool.not_eq_true] at hr
      have hsf := setField_of_not_has entity "rowKey" rowKey hr
      have hp2 : hasOwnProperty (entity ++ [("rowKey", rowKey)]) "partitionKey" = true := by
        rw [hasOwnProperty_append, hp]
        simp
      simp only [updateWrittenEntity, hr, hsf, hp2, Bool.not_true, Bool.not_false,
        Bool.false_eq_true, if_false, if_true]
      apply getField_append_right_none
      simp [hasOwnProperty]

/-- C10 witness: the theorem applied at a concrete entity that already
carries both key fields, with different key arguments: the entity's own
values win. -/
theorem update_keeps_existing_keys_witness :
    getField (updateWrittenEntity "P1" "R1" [("rowKey", "R0"), ("partitionKey", "P0")])
        "rowKey" = some "R0"
    ∧ getField (updateWrittenEntity "P1" "R1" [("rowKey", "R0"), ("partitionKey", "P0")])
        "partitionKey" = some "P0" :=
  have h := update_keeps_existing_keys "P1" "R1" [("rowKey", "R0"), ("partitionKey", "P0")]
  ⟨(h.1 (by decide)).trans (by decide), (h.2 (by decide)).trans (by decide)⟩

end AzureDatabase
